import Mathlib

/-!
Verification of the `sonic-plus` service manager (`sonic_plus/main.py`).

The registry persisted at `REPO_PATH` is a JSON object mapping service
names to metadata objects with fields `repo`, `description` and an
optional `status`.  We embed it as an association list preserving the
(insertion-ordered, key-unique) Python dict.  Each CLI command is
translated into a pure function from an environment (the outcomes of the
external Docker / filesystem collaborators) and the persisted file state
to a result (`Except` of an abort cause) together with the ordered trace
of side effects it performed.
-/

namespace SonicPlus

def VARLIB_PATH : String := "/var/lib/sonic-plus/"

def REPO_PATH : String := VARLIB_PATH ++ "repo"

def SCHEMA_PATH : String := "/schema.json"

def INSTALL_PATH : String := "/usr/lib/python2.7/dist-packages/"

/-- One registry entry: the JSON object stored under a service name.
`status` is `none` when the `status` key is absent. -/
structure Entry where
  repo : String
  description : String
  status : Option String
deriving DecidableEq, Repr

/-- The registry document: an insertion-ordered mapping from service
names to entries, as a Python dict is. -/
abbrev Registry := List (String × Entry)

/-- `name in d` / `d[name]` of the Python dict. -/
def lookupEntry : Registry → String → Option Entry
  | [], _ => none
  | (k, v) :: rest, n => if k = n then some v else lookupEntry rest n

/-- `d[name] = e` of the Python dict: replace in place if the key is
present, append otherwise. -/
def setEntry : Registry → String → Entry → Registry
  | [], n, e => [(n, e)]
  | (k, v) :: rest, n, e =>
    if k = n then (n, e) :: rest else (k, v) :: setEntry rest n e

/-- The service names present in the registry, in order. -/
def keys (r : Registry) : List String := r.map Prod.fst

/-- Why a command terminated without completing.  Each `click.Abort`
site of `main.py` gets one constructor, identified by the message it
echoes; `UncaughtJsonError` is not an abort at all: it is the unhandled
exception `json.loads` raises at line 94, which sits outside the
surrounding `try` block. -/
inductive Err where
  | RegistryEmpty
  | ServiceNotFound
  | AlreadyInstalled
  | NotInstalled
  | PullFailed
  | SchemaUnavailable
  | UncaughtJsonError
  | RunFailed
  | ContainerRemoveFailed
  | ImageRemoveFailed
  | RepositoryExists
deriving DecidableEq, Repr

/-- A side effect performed by a command, in program order. -/
inductive Ev where
  | pullImage (ref : String)
  | runSchemaCat (ref : String)
  | makeDir (p : String)
  | writeFile (p : String)
  | chmodFile (p : String)
  | removeFile (p : String)
  | removeDir (p : String)
  | runContainer (ref n : String)
  | containerRemove (n : String)
  | imageRemove (ref : String)
  | saveRegistry (r : Registry)
deriving DecidableEq, Repr

/-- Filesystem mutations, as opposed to Docker operations and the
registry write. -/
def Ev.isFs : Ev → Bool
  | .makeDir _ => true
  | .writeFile _ => true
  | .chmodFile _ => true
  | .removeFile _ => true
  | .removeDir _ => true
  | _ => false

/-- The filesystem mutations of a trace, in order. -/
def fsEvents (tr : List Ev) : List Ev := tr.filter Ev.isFs

/-- The registry documents written to `REPO_PATH` by a trace, in order. -/
def savesIn (tr : List Ev) : List Registry :=
  tr.filterMap (fun e => match e with | .saveRegistry r => some r | _ => none)

/-- The persisted registry document after a trace ran against an initial
document `init`: the last write, or `init` if nothing was written. -/
def persist (init : Registry) (tr : List Ev) : Registry :=
  ((savesIn tr).getLast?).getD init

/-- `get_repo` (main.py:24-33).  `file` is the state of `REPO_PATH`:
`none` when the file does not exist, `some d` when it holds document
`d`. -/
def get_repo (file : Option Registry) (abort_on_empty : Bool) : Except Err Registry :=
  match file with
  | some r => Except.ok r
  | none =>
    if abort_on_empty then Except.error Err.RegistryEmpty else Except.ok []

/-- Outcomes of the external collaborators consulted by `install`:
whether the image pull succeeds, the result of the `/bin/cat
/schema.json` container run (`none`: the run raises; `some none`: the
run succeeds but its output is not valid JSON; `some (some s)`: the
output parses to schema `s`), and whether the final detached container
run succeeds. -/
structure InstallEnv where
  pullOk : Bool
  catResult : Option (Option String)
  runOk : Bool
deriving DecidableEq, Repr

/-- Outcomes of the external collaborators consulted by `remove`:
whether `main.pyc` / `__init__.pyc` exist (the only two existence
checks), and whether the container and image removals succeed. -/
structure RemoveEnv where
  mainPycExists : Bool
  initPycExists : Bool
  containerRemoveOk : Bool
  imageRemoveOk : Bool
deriving DecidableEq, Repr

/-- The filesystem mutations of a successful install (main.py:96-119),
in program order. -/
def installFsEvs (name : String) : List Ev :=
  let pkg := INSTALL_PATH ++ "/" ++ name
  [Ev.makeDir pkg,
   Ev.writeFile (pkg ++ "/main.py"),
   Ev.writeFile (pkg ++ "/__init__.py"),
   Ev.writeFile ("/usr/bin/" ++ name),
   Ev.chmodFile ("/usr/bin/" ++ name),
   Ev.writeFile ("/etc/bash_completion.d/" ++ name)]

/-- `install` after the registry has been loaded (main.py:64-131). -/
def installLoaded (env : InstallEnv) (repo : Registry) (name : String) :
    Except Err Registry × List Ev :=
  match lookupEntry repo name with
  | none => (Except.error Err.ServiceNotFound, [])
  | some entry =>
    if entry.status = some "Installed" then
      (Except.error Err.AlreadyInstalled, [])
    else if env.pullOk = false then
      (Except.error Err.PullFailed, [Ev.pullImage entry.repo])
    else
      match env.catResult with
      | none =>
        (Except.error Err.SchemaUnavailable,
         [Ev.pullImage entry.repo, Ev.runSchemaCat entry.repo])
      | some none =>
        (Except.error Err.UncaughtJsonError,
         [Ev.pullImage entry.repo, Ev.runSchemaCat entry.repo])
      | some (some _schema) =>
        let pre := [Ev.pullImage entry.repo, Ev.runSchemaCat entry.repo]
          ++ installFsEvs name
        if env.runOk = false then
          (Except.error Err.RunFailed, pre ++ [Ev.runContainer entry.repo name])
        else
          let reg' := setEntry repo name { entry with status := some "Installed" }
          (Except.ok reg',
           pre ++ [Ev.runContainer entry.repo name, Ev.saveRegistry reg'])

/-- `install` (main.py:58-131). -/
def install (env : InstallEnv) (file : Option Registry) (name : String) :
    Except Err Registry × List Ev :=
  match get_repo file true with
  | Except.error e => (Except.error e, [])
  | Except.ok repo => installLoaded env repo name

/-- The guard at main.py:144: `'status' in repo[name] and
repo[name]['status'] != "Installed"`.  Note an absent `status` key makes
the conjunction false, so the guard does not fire. -/
def statusGuardNotInstalled (e : Entry) : Bool :=
  match e.status with
  | some s => if s = "Installed" then false else true
  | none => false

/-- The filesystem mutations of the artifact-teardown step of `remove`
(main.py:149-158), in program order.  `os.rmdir(package_path)` at line
157 precedes the completion-script removal at line 158. -/
def removeFsEvs (env : RemoveEnv) (name : String) : List Ev :=
  let pkg := INSTALL_PATH ++ "/" ++ name
  [Ev.removeFile (pkg ++ "/main.py")]
  ++ (if env.mainPycExists then [Ev.removeFile (pkg ++ "/main.pyc")] else [])
  ++ [Ev.removeFile (pkg ++ "/__init__.py")]
  ++ (if env.initPycExists then [Ev.removeFile (pkg ++ "/__init__.pyc")] else [])
  ++ [Ev.removeFile ("/usr/bin/" ++ name),
      Ev.removeDir pkg,
      Ev.removeFile ("/etc/bash_completion.d/" ++ name)]

/-- `remove` after the registry has been loaded (main.py:140-181). -/
def removeLoaded (env : RemoveEnv) (repo : Registry) (name : String) :
    Except Err Registry × List Ev :=
  match lookupEntry repo name with
  | none => (Except.error Err.ServiceNotFound, [])
  | some entry =>
    if statusGuardNotInstalled entry then
      (Except.error Err.NotInstalled, [])
    else
      let fs := removeFsEvs env name
      if env.containerRemoveOk = false then
        (Except.error Err.ContainerRemoveFailed, fs ++ [Ev.containerRemove name])
      else if env.imageRemoveOk = false then
        (Except.error Err.ImageRemoveFailed,
         fs ++ [Ev.containerRemove name, Ev.imageRemove entry.repo])
      else
        let reg' := setEntry repo name { entry with status := some "Not installed" }
        (Except.ok reg',
         fs ++ [Ev.containerRemove name, Ev.imageRemove entry.repo,
                Ev.saveRegistry reg'])

/-- `remove` (main.py:134-181). -/
def remove (env : RemoveEnv) (file : Option Registry) (name : String) :
    Except Err Registry × List Ev :=
  match get_repo file true with
  | Except.error e => (Except.error e, [])
  | Except.ok repo => removeLoaded env repo name

/-- `addrepo` after the registry has been loaded (main.py:191-204).
The duplicate check at line 191 is `if repo in repo_dict`, which in
Python tests the repository reference against the dict KEYS, i.e. the
service names. -/
def addrepoLoaded (repo_dict : Registry) (name repoRef : String) :
    Except Err Registry × List Ev :=
  if (lookupEntry repo_dict repoRef).isSome then
    (Except.error Err.RepositoryExists, [])
  else
    let reg' := setEntry repo_dict name ⟨repoRef, repoRef, none⟩
    (Except.ok reg', [Ev.saveRegistry reg'])

/-- `addrepo` (main.py:184-204). -/
def addrepo (file : Option Registry) (name repoRef : String) :
    Except Err Registry × List Ev :=
  match get_repo file false with
  | Except.error e => (Except.error e, [])
  | Except.ok d => addrepoLoaded d name repoRef

instance {α β : Type} [DecidableEq α] [DecidableEq β] : DecidableEq (Except α β) := fun x y =>
  match x, y with
  | .ok a, .ok b =>
    if h : a = b then .isTrue (h ▸ rfl) else .isFalse fun hc => h (Except.ok.inj hc)
  | .error a, .error b =>
    if h : a = b then .isTrue (h ▸ rfl) else .isFalse fun hc => h (Except.error.inj hc)
  | .ok _, .error _ => .isFalse fun hc => Except.noConfusion hc
  | .error _, .ok _ => .isFalse fun hc => Except.noConfusion hc

/-! ### Basic lemmas about the registry map -/

theorem lookupEntry_setEntry_self (r : Registry) (n : String) (e : Entry) :
    lookupEntry (setEntry r n e) n = some e := by
  induction r with
  | nil => simp [setEntry, lookupEntry]
  | cons kv rest ih =>
    obtain ⟨k, v⟩ := kv
    by_cases h : k = n <;> simp [setEntry, lookupEntry, h, ih]

theorem lookupEntry_setEntry_ne (r : Registry) (n m : String) (e : Entry)
    (h : m ≠ n) : lookupEntry (setEntry r n e) m = lookupEntry r m := by
  have hnm : ¬n = m := fun h' => h h'.symm
  induction r with
  | nil => simp [setEntry, lookupEntry, hnm]
  | cons kv rest ih =>
    obtain ⟨k, v⟩ := kv
    by_cases hk : k = n
    · subst hk
      simp [setEntry, lookupEntry, hnm]
    · by_cases hm : k = m <;> simp [setEntry, lookupEntry, hk, hm, h, ih]

theorem keys_setEntry (r : Registry) (n : String) (e : Entry) :
    keys (setEntry r n e) = if (lookupEntry r n).isSome then keys r else keys r ++ [n] := by
  induction r with
  | nil => simp [setEntry, lookupEntry, keys]
  | cons kv rest ih =>
    obtain ⟨k, v⟩ := kv
    by_cases h : k = n
    · simp [setEntry, lookupEntry, keys, h]
    · simp only [setEntry, if_neg h, keys, List.map_cons, lookupEntry] at ih ⊢
      rw [ih]
      split <;> simp

theorem keys_subset_setEntry (r : Registry) (n : String) (e : Entry) :
    keys r ⊆ keys (setEntry r n e) := by
  rw [keys_setEntry]
  split
  · exact fun a h => h
  · exact fun a h => List.mem_append_left _ h

/-! ### Trace bookkeeping lemmas -/

theorem savesIn_append (tr tr' : List Ev) :
    savesIn (tr ++ tr') = savesIn tr ++ savesIn tr' := by
  simp [savesIn]

theorem savesIn_installFsEvs (name : String) : savesIn (installFsEvs name) = [] := by
  simp [installFsEvs, savesIn]

theorem savesIn_removeFsEvs (env : RemoveEnv) (name : String) :
    savesIn (removeFsEvs env name) = [] := by
  by_cases h1 : env.mainPycExists <;> by_cases h2 : env.initPycExists <;>
    simp [removeFsEvs, savesIn, h1, h2]

/-- The registry writes a run of `installLoaded` performs: none on
failure, exactly the returned registry on success. -/
theorem savesIn_installLoaded (env : InstallEnv) (repo : Registry) (name : String) :
    savesIn (installLoaded env repo name).2
      = match (installLoaded env repo name).1 with
        | Except.ok r' => [r']
        | Except.error _ => [] := by
  unfold installLoaded
  cases h : lookupEntry repo name with
  | none => simp [savesIn]
  | some entry =>
    by_cases hst : entry.status = some "Installed"
    · simp [hst, savesIn]
    · by_cases hp : env.pullOk = false
      · simp [hst, hp, savesIn]
      · cases hc : env.catResult with
        | none => simp [hst, hp, hc, savesIn]
        | some o =>
          cases o with
          | none => simp [hst, hp, hc, savesIn]
          | some s =>
            by_cases hr : env.runOk = false <;>
              simp [hst, hp, hc, hr, savesIn, installFsEvs]

/-- The registry writes a run of `removeLoaded` performs: none on
failure, exactly the returned registry on success. -/
theorem savesIn_removeLoaded (env : RemoveEnv) (repo : Registry) (name : String) :
    savesIn (removeLoaded env repo name).2
      = match (removeLoaded env repo name).1 with
        | Except.ok r' => [r']
        | Except.error _ => [] := by
  unfold removeLoaded
  cases h : lookupEntry repo name with
  | none => simp [savesIn]
  | some entry =>
    by_cases hst : statusGuardNotInstalled entry
    · simp [hst, savesIn]
    · by_cases h1 : env.mainPycExists <;> by_cases h2 : env.initPycExists <;>
        by_cases hcr : env.containerRemoveOk = false <;>
        by_cases hir : env.imageRemoveOk = false <;>
        simp [hst, h1, h2, hcr, hir, savesIn, removeFsEvs]

/-! ### Inversion lemmas: what a successful run tells us -/

/-- A successful `installLoaded` found the entry, saw it not installed,
set its status to `Installed` and ran the full effect sequence, ending
with the registry save. -/
theorem installLoaded_ok_inv (env : InstallEnv) (repo : Registry) (name : String)
    (r' : Registry) (tr : List Ev)
    (h : installLoaded env repo name = (Except.ok r', tr)) :
    ∃ e, lookupEntry repo name = some e ∧ e.status ≠ some "Installed" ∧
      r' = setEntry repo name { e with status := some "Installed" } ∧
      tr = [Ev.pullImage e.repo, Ev.runSchemaCat e.repo] ++ installFsEvs name
        ++ [Ev.runContainer e.repo name, Ev.saveRegistry r'] := by
  unfold installLoaded at h
  cases hl : lookupEntry repo name with
  | none => rw [hl] at h; simp at h
  | some entry =>
    rw [hl] at h
    by_cases hst : entry.status = some "Installed"
    · simp [hst] at h
    · by_cases hp : env.pullOk = false
      · simp [hst, hp] at h
      · cases hc : env.catResult with
        | none => rw [hc] at h; simp [hst, hp] at h
        | some o =>
          cases o with
          | none => rw [hc] at h; simp [hst, hp] at h
          | some s =>
            rw [hc] at h
            by_cases hr : env.runOk = false
            · simp [hst, hp, hr] at h
            · simp only [hst, hp, hr, if_neg, ite_false, if_false] at h
              simp at h
              obtain ⟨h1, h2⟩ := h
              exact ⟨entry, rfl, hst, h1.symm, by rw [← h2, h1]; simp⟩

/-- A successful `removeLoaded` found the entry, passed the status
guard, set the status to `Not installed` and ran the full effect
sequence, ending with the registry save. -/
theorem removeLoaded_ok_inv (env : RemoveEnv) (repo : Registry) (name : String)
    (r' : Registry) (tr : List Ev)
    (h : removeLoaded env repo name = (Except.ok r', tr)) :
    ∃ e, lookupEntry repo name = some e ∧ statusGuardNotInstalled e = false ∧
      r' = setEntry repo name { e with status := some "Not installed" } ∧
      tr = removeFsEvs env name
        ++ [Ev.containerRemove name, Ev.imageRemove e.repo, Ev.saveRegistry r'] := by
  unfold removeLoaded at h
  cases hl : lookupEntry repo name with
  | none => rw [hl] at h; simp at h
  | some entry =>
    rw [hl] at h
    by_cases hst : statusGuardNotInstalled entry
    · simp [hst] at h
    · by_cases hcr : env.containerRemoveOk = false
      · simp [hst, hcr] at h
      · by_cases hir : env.imageRemoveOk = false
        · simp [hst, hcr, hir] at h
        · simp only [hst, hcr, hir, ite_false, if_false] at h
          simp at h
          obtain ⟨h1, h2⟩ := h
          refine ⟨entry, rfl, by simpa using hst, h1.symm, ?_⟩
          rw [← h2, h1]

/-- A successful `addrepoLoaded` saw the reference absent from the key
set and wrote the new entry. -/
theorem addrepoLoaded_ok_inv (d : Registry) (name repoRef : String)
    (r' : Registry) (tr : List Ev)
    (h : addrepoLoaded d name repoRef = (Except.ok r', tr)) :
    lookupEntry d repoRef = none ∧
      r' = setEntry d name ⟨repoRef, repoRef, none⟩ ∧
      tr = [Ev.saveRegistry r'] := by
  unfold addrepoLoaded at h
  cases hl : lookupEntry d repoRef with
  | some e => rw [hl] at h; simp at h
  | none =>
    rw [hl] at h
    simp at h
    obtain ⟨h1, h2⟩ := h
    exact ⟨rfl, h1.symm, by rw [← h2, h1]⟩

/-- A successful `install` loaded an existing file. -/
theorem install_ok_inv (env : InstallEnv) (file : Option Registry) (name : String)
    (r' : Registry) (tr : List Ev)
    (h : install env file name = (Except.ok r', tr)) :
    ∃ d, file = some d ∧ installLoaded env d name = (Except.ok r', tr) := by
  cases file with
  | none => simp [install, get_repo] at h
  | some d => exact ⟨d, rfl, by simpa [install, get_repo] using h⟩

/-- A successful `remove` loaded an existing file. -/
theorem remove_ok_inv (env : RemoveEnv) (file : Option Registry) (name : String)
    (r' : Registry) (tr : List Ev)
    (h : remove env file name = (Except.ok r', tr)) :
    ∃ d, file = some d ∧ removeLoaded env d name = (Except.ok r', tr) := by
  cases file with
  | none => simp [remove, get_repo] at h
  | some d => exact ⟨d, rfl, by simpa [remove, get_repo] using h⟩

/-- `addrepo` always operates on `file.getD []`. -/
theorem addrepo_eq (file : Option Registry) (name repoRef : String) :
    addrepo file name repoRef = addrepoLoaded (file.getD []) name repoRef := by
  cases file <;> simp [addrepo, get_repo]

/-- Registry writes of the full `install` command. -/
theorem savesIn_install (env : InstallEnv) (file : Option Registry) (name : String) :
    savesIn (install env file name).2
      = match (install env file name).1 with
        | Except.ok r' => [r']
        | Except.error _ => [] := by
  cases file with
  | none => simp [install, get_repo, savesIn]
  | some d => simpa [install, get_repo] using savesIn_installLoaded env d name

/-- Registry writes of the full `remove` command. -/
theorem savesIn_remove (env : RemoveEnv) (file : Option Registry) (name : String) :
    savesIn (remove env file name).2
      = match (remove env file name).1 with
        | Except.ok r' => [r']
        | Except.error _ => [] := by
  cases file with
  | none => simp [remove, get_repo, savesIn]
  | some d => simpa [remove, get_repo] using savesIn_removeLoaded env d name

/-- Registry writes of the full `addrepo` command. -/
theorem savesIn_addrepo (file : Option Registry) (name repoRef : String) :
    savesIn (addrepo file name repoRef).2
      = match (addrepo file name repoRef).1 with
        | Except.ok r' => [r']
        | Except.error _ => [] := by
  rw [addrepo_eq]
  unfold addrepoLoaded
  cases hl : lookupEntry (file.getD []) repoRef <;> simp [savesIn]

theorem persist_of_savesIn_nil (init : Registry) (tr : List Ev)
    (h : savesIn tr = []) : persist init tr = init := by
  simp [persist, h]

theorem persist_of_savesIn_single (init : Registry) (tr : List Ev) (r' : Registry)
    (h : savesIn tr = [r']) : persist init tr = r' := by
  simp [persist, h]

theorem fsEvents_append (a b : List Ev) :
    fsEvents (a ++ b) = fsEvents a ++ fsEvents b := by
  simp [fsEvents]

theorem fsEvents_removeFsEvs (env : RemoveEnv) (name : String) :
    fsEvents (removeFsEvs env name) = removeFsEvs env name := by
  by_cases h1 : env.mainPycExists <;> by_cases h2 : env.initPycExists <;>
    simp [removeFsEvs, fsEvents, Ev.isFs, h1, h2]

theorem removeFsEvs_ne_nil (env : RemoveEnv) (name : String) :
    removeFsEvs env name ≠ [] := by
  by_cases h1 : env.mainPycExists <;> by_cases h2 : env.initPycExists <;>
    simp [removeFsEvs, h1, h2]

/-! ### The claims -/

/-- C6: `get_repo` returns the parsed document whenever the backing file
exists, regardless of `abort_on_empty`; when the file is missing it
returns the empty mapping if `abort_on_empty` is false and aborts with
`RegistryEmpty` if it is true. -/
theorem C6_get_repo_spec :
    (∀ (d : Registry) (b : Bool), get_repo (some d) b = Except.ok d)
    ∧ get_repo none false = Except.ok []
    ∧ get_repo none true = Except.error Err.RegistryEmpty :=
  ⟨fun _ _ => rfl, rfl, rfl⟩

/-- C1 is false of the code.  With registry `{"a": {repo: "ref", ...}}`,
a second `addrepo` of the same reference `"ref"` under the fresh name
`"b"` SUCCEEDS (the claim says it fails with `RepositoryExists`) and the
registry then holds two entries whose repo value is `"ref"`; conversely,
adding reference `"acl"` to registry `{"acl": {repo: "x", ...}}` fails
with `RepositoryExists` although no entry's repo value is `"acl"`: the
check at main.py:191 (`if repo in repo_dict`) tests the reference
against the dict keys (service names), not the repo values. -/
theorem C1_counterexample :
    (addrepo (some [("a", (⟨"ref", "ref", none⟩ : Entry))]) "b" "ref").1
      = Except.ok [("a", (⟨"ref", "ref", none⟩ : Entry)), ("b", ⟨"ref", "ref", none⟩)]
    ∧ (addrepo (some [("a", (⟨"ref", "ref", none⟩ : Entry))]) "b" "ref").1
      ≠ Except.error Err.RepositoryExists
    ∧ (addrepo (some [("acl", (⟨"x", "x", none⟩ : Entry))]) "b" "acl").1
      = Except.error Err.RepositoryExists := by decide

/-- C1 amended: `addrepo name ref` fails with `RepositoryExists` if and
only if `ref` is already present as a KEY (service name) of the loaded
registry; the de-duplication key is the reference compared against the
name set, so the same reference can be added any number of times under
names distinct from it. -/
theorem C1_amended_addrepo_dedup_by_key (file : Option Registry) (name repoRef : String) :
    (addrepo file name repoRef).1 = Except.error Err.RepositoryExists
      ↔ (lookupEntry (file.getD []) repoRef).isSome := by
  rw [addrepo_eq]
  unfold addrepoLoaded
  cases hl : lookupEntry (file.getD []) repoRef <;> simp [hl]

/-- C7: a successful `addrepo name ref` persists exactly the entry
`{repo: ref, description: ref}` under `name`, with no status key (the
description defaulting to the reference), the registry save being its
only side effect; `addrepo` consults no Docker or filesystem
collaborator, so no existence or reachability check on `ref` occurs. -/
theorem C7_addrepo_success_entry (file : Option Registry) (name repoRef : String)
    (r' : Registry) (tr : List Ev)
    (h : addrepo file name repoRef = (Except.ok r', tr)) :
    lookupEntry r' name = some ⟨repoRef, repoRef, none⟩
    ∧ r' = setEntry (file.getD []) name ⟨repoRef, repoRef, none⟩
    ∧ tr = [Ev.saveRegistry r'] := by
  rw [addrepo_eq] at h
  obtain ⟨hnone, hr, htr⟩ := addrepoLoaded_ok_inv _ _ _ _ _ h
  exact ⟨by rw [hr]; exact lookupEntry_setEntry_self _ _ _, hr, htr⟩

theorem C7_witness :
    lookupEntry [("acl", (⟨"example.com/acl-svc", "example.com/acl-svc", none⟩ : Entry))] "acl"
      = some ⟨"example.com/acl-svc", "example.com/acl-svc", none⟩
    ∧ [("acl", (⟨"example.com/acl-svc", "example.com/acl-svc", none⟩ : Entry))]
      = setEntry ((none : Option Registry).getD []) "acl"
          ⟨"example.com/acl-svc", "example.com/acl-svc", none⟩
    ∧ [Ev.saveRegistry [("acl", (⟨"example.com/acl-svc", "example.com/acl-svc", none⟩ : Entry))]]
      = [Ev.saveRegistry [("acl", ⟨"example.com/acl-svc", "example.com/acl-svc", none⟩)]] :=
  C7_addrepo_success_entry none "acl" "example.com/acl-svc"
    [("acl", ⟨"example.com/acl-svc", "example.com/acl-svc", none⟩)]
    [Ev.saveRegistry [("acl", ⟨"example.com/acl-svc", "example.com/acl-svc", none⟩)]]
    (by decide)

/-- C10: when `name` is already present in the registry (with any entry,
an `Installed` one included) and the reference is not caught by the
duplicate check (it is not a service name), `addrepo` succeeds and
silently overwrites the entry with `{repo: ref, description: ref}` and
no status key, discarding the previous repo, description and status. -/
theorem C10_addrepo_overwrite (d : Registry) (n r : String) (e : Entry)
    (hn : lookupEntry d n = some e) (hr : lookupEntry d r = none) :
    addrepo (some d) n r
      = (Except.ok (setEntry d n ⟨r, r, none⟩),
         [Ev.saveRegistry (setEntry d n ⟨r, r, none⟩)])
    ∧ lookupEntry (setEntry d n ⟨r, r, none⟩) n = some ⟨r, r, none⟩ := by
  constructor
  · rw [addrepo_eq]
    unfold addrepoLoaded
    simp [hr]
  · exact lookupEntry_setEntry_self _ _ _

theorem C10_witness :
    (addrepo (some [("acl", (⟨"old", "olddesc", some "Installed"⟩ : Entry))]) "acl" "new.example/ref"
      = (Except.ok (setEntry [("acl", (⟨"old", "olddesc", some "Installed"⟩ : Entry))] "acl"
           ⟨"new.example/ref", "new.example/ref", none⟩),
         [Ev.saveRegistry (setEntry [("acl", (⟨"old", "olddesc", some "Installed"⟩ : Entry))] "acl"
           ⟨"new.example/ref", "new.example/ref", none⟩)]))
    ∧ lookupEntry (setEntry [("acl", (⟨"old", "olddesc", some "Installed"⟩ : Entry))] "acl"
        ⟨"new.example/ref", "new.example/ref", none⟩) "acl"
      = some ⟨"new.example/ref", "new.example/ref", none⟩ :=
  C10_addrepo_overwrite [("acl", ⟨"old", "olddesc", some "Installed"⟩)] "acl" "new.example/ref"
    ⟨"old", "olddesc", some "Installed"⟩ (by decide) (by decide)

/-- C2 is false of the code.  On the registry `{"a": {repo: "r",
description: "r"}}` whose entry has NO status key, `remove "a"` does not
fail with the `NotInstalled` error (the claim says it must): the guard
at main.py:144 requires the status key to be PRESENT, so the command
proceeds and performs side effects (a non-empty trace with filesystem
deletions). -/
theorem C2_counterexample :
    (remove ⟨false, false, true, true⟩ (some [("a", (⟨"r", "r", none⟩ : Entry))]) "a").1
      ≠ Except.error Err.NotInstalled
    ∧ (remove ⟨false, false, true, true⟩ (some [("a", (⟨"r", "r", none⟩ : Entry))]) "a").2 ≠ []
    ∧ fsEvents (remove ⟨false, false, true, true⟩ (some [("a", (⟨"r", "r", none⟩ : Entry))]) "a").2
      ≠ [] := by decide

/-- C2 amended: `remove` fails with `NotInstalled` and performs no side
effects exactly when the entry's status key is present with a value
other than `Installed`; when the status key is absent the guard does not
fire and the command proceeds with the teardown, performing filesystem
deletions. -/
theorem C2_amended_remove_guard (env : RemoveEnv) (d : Registry) (name : String) (e : Entry)
    (h : lookupEntry d name = some e) :
    (∀ s, e.status = some s → s ≠ "Installed" →
      remove env (some d) name = (Except.error Err.NotInstalled, []))
    ∧ (e.status = none →
      (remove env (some d) name).1 ≠ Except.error Err.NotInstalled
      ∧ fsEvents (remove env (some d) name).2 ≠ []) := by
  constructor
  · intro s hs hne
    have hg : statusGuardNotInstalled e = true := by
      simp [statusGuardNotInstalled, hs, hne]
    simp [remove, get_repo, removeLoaded, h, hg]
  · intro hnone
    have hg : statusGuardNotInstalled e = false := by
      simp [statusGuardNotInstalled, hnone]
    by_cases hcr : env.containerRemoveOk = false
    · constructor <;>
        simp [remove, get_repo, removeLoaded, h, hg, hcr, fsEvents_append,
          fsEvents_removeFsEvs, removeFsEvs_ne_nil]
    · by_cases hir : env.imageRemoveOk = false <;> constructor <;>
        simp [remove, get_repo, removeLoaded, h, hg, hcr, hir, fsEvents_append,
          fsEvents_removeFsEvs, removeFsEvs_ne_nil]

theorem C2_witness :
    remove ⟨false, false, true, true⟩
        (some [("a", (⟨"r", "r", some "Not installed"⟩ : Entry))]) "a"
      = (Except.error Err.NotInstalled, []) :=
  (C2_amended_remove_guard ⟨false, false, true, true⟩
    [("a", ⟨"r", "r", some "Not installed"⟩)] "a" ⟨"r", "r", some "Not installed"⟩
    (by decide)).1 "Not installed" rfl (by decide)

/-- C3 is false of the code in its error mode.  When the image pull and
the schema-extraction container run both succeed but the captured output
is not valid JSON (environment `catResult = some none`), `install` does
not fail with `SchemaUnavailable` (the claim says it must): the
`json.loads(output)` call at main.py:94 sits OUTSIDE the `try` block of
lines 87-91, so the parse failure escapes as an uncaught exception. -/
theorem C3_counterexample :
    (install ⟨true, some none, true⟩ (some [("acl", (⟨"r", "r", none⟩ : Entry))]) "acl").1
      = Except.error Err.UncaughtJsonError
    ∧ (install ⟨true, some none, true⟩ (some [("acl", (⟨"r", "r", none⟩ : Entry))]) "acl").1
      ≠ Except.error Err.SchemaUnavailable := by decide

/-- C3 amended: if the schema-extraction container run raises, `install`
fails with `SchemaUnavailable`; if the run succeeds but its output does
not parse, `install` terminates with the uncaught `json.loads` exception
instead (NOT the `SchemaUnavailable` abort).  In both cases the claim's
state part holds: the trace contains no filesystem mutation (no install
directory is created) and no registry write, so the entry's status is
unchanged. -/
theorem C3_amended_schema_failure (env : InstallEnv) (d : Registry) (name : String) (e : Entry)
    (h : lookupEntry d name = some e) (hst : e.status ≠ some "Installed")
    (hp : env.pullOk = true) :
    (env.catResult = none →
      install env (some d) name
        = (Except.error Err.SchemaUnavailable, [Ev.pullImage e.repo, Ev.runSchemaCat e.repo]))
    ∧ (env.catResult = some none →
      install env (some d) name
        = (Except.error Err.UncaughtJsonError, [Ev.pullImage e.repo, Ev.runSchemaCat e.repo]))
    ∧ fsEvents [Ev.pullImage e.repo, Ev.runSchemaCat e.repo] = []
    ∧ savesIn [Ev.pullImage e.repo, Ev.runSchemaCat e.repo] = [] := by
  refine ⟨fun hc => ?_, fun hc => ?_, by simp [fsEvents, Ev.isFs], by simp [savesIn]⟩ <;>
    simp [install, get_repo, installLoaded, h, hst, hp, hc]

theorem C3_witness :
    install ⟨true, some none, true⟩ (some [("acl", (⟨"r", "r", none⟩ : Entry))]) "acl"
      = (Except.error Err.UncaughtJsonError, [Ev.pullImage "r", Ev.runSchemaCat "r"]) :=
  (C3_amended_schema_failure ⟨true, some none, true⟩ [("acl", ⟨"r", "r", none⟩)] "acl"
    ⟨"r", "r", none⟩ (by decide) (by decide) rfl).2.1 rfl

/-- C5: after any successful `install` of `name`, an immediately
following second `install` of `name` (under any outcomes of the external
collaborators) fails with `AlreadyInstalled` with an EMPTY side-effect
trace: the check fires before any image pull, filesystem mutation,
container operation or registry write, so the registry is unchanged by
the second call. -/
theorem C5_install_twice (env env' : InstallEnv) (file : Option Registry) (name : String)
    (r' : Registry) (tr : List Ev)
    (h : install env file name = (Except.ok r', tr)) :
    install env' (some r') name = (Except.error Err.AlreadyInstalled, []) := by
  obtain ⟨d, hf, hins⟩ := install_ok_inv _ _ _ _ _ h
  obtain ⟨e, hl, hst, hr, htr⟩ := installLoaded_ok_inv _ _ _ _ _ hins
  have hlook : lookupEntry r' name = some { e with status := some "Installed" } := by
    rw [hr]; exact lookupEntry_setEntry_self _ _ _
  simp [install, get_repo, installLoaded, hlook]

theorem C5_witness :
    install ⟨false, none, false⟩ (some [("a", (⟨"r", "r", some "Installed"⟩ : Entry))]) "a"
      = (Except.error Err.AlreadyInstalled, []) :=
  C5_install_twice ⟨true, some (some "s"), true⟩ ⟨false, none, false⟩
    (some [("a", ⟨"r", "r", none⟩)]) "a"
    [("a", ⟨"r", "r", some "Installed"⟩)]
    ([Ev.pullImage "r", Ev.runSchemaCat "r"] ++ installFsEvs "a"
      ++ [Ev.runContainer "r" "a", Ev.saveRegistry [("a", ⟨"r", "r", some "Installed"⟩)]])
    (by decide)

/-- The persisted document after a full `install`: unchanged on failure,
the returned registry on success. -/
theorem persist_install (env : InstallEnv) (file : Option Registry) (name : String) :
    persist (file.getD []) (install env file name).2
      = match (install env file name).1 with
        | Except.ok r' => r'
        | Except.error _ => file.getD [] := by
  have hs := savesIn_install env file name
  cases hres : (install env file name).1 with
  | error e =>
    rw [hres] at hs
    exact persist_of_savesIn_nil _ _ hs
  | ok r' =>
    rw [hres] at hs
    exact persist_of_savesIn_single _ _ _ hs

/-- The persisted document after a full `remove`: unchanged on failure,
the returned registry on success. -/
theorem persist_remove (env : RemoveEnv) (file : Option Registry) (name : String) :
    persist (file.getD []) (remove env file name).2
      = match (remove env file name).1 with
        | Except.ok r' => r'
        | Except.error _ => file.getD [] := by
  have hs := savesIn_remove env file name
  cases hres : (remove env file name).1 with
  | error e =>
    rw [hres] at hs
    exact persist_of_savesIn_nil _ _ hs
  | ok r' =>
    rw [hres] at hs
    exact persist_of_savesIn_single _ _ _ hs

/-- The persisted document after a full `addrepo`: unchanged on failure,
the returned registry on success. -/
theorem persist_addrepo (file : Option Registry) (name repoRef : String) :
    persist (file.getD []) (addrepo file name repoRef).2
      = match (addrepo file name repoRef).1 with
        | Except.ok r' => r'
        | Except.error _ => file.getD [] := by
  have hs := savesIn_addrepo file name repoRef
  cases hres : (addrepo file name repoRef).1 with
  | error e =>
    rw [hres] at hs
    exact persist_of_savesIn_nil _ _ hs
  | ok r' =>
    rw [hres] at hs
    exact persist_of_savesIn_single _ _ _ hs

/-- C4: the registry write is the final step of `install` and of
`remove`.  Whenever either command fails, no registry write occurred and
the persisted document is unchanged; whenever it succeeds, the one and
only registry write is the very last event of the trace — after the
image pull, schema extraction, artifact generation and container start
of `install` (resp. the artifact deletion, container removal and image
removal of `remove`) — and the document it writes carries status
`Installed` (resp. `Not installed`) on the named entry. -/
theorem C4_registry_save_discipline (ienv : InstallEnv) (renv : RemoveEnv)
    (file : Option Registry) (name : String) :
    (∀ er tr, install ienv file name = (Except.error er, tr) →
      savesIn tr = [] ∧ persist (file.getD []) tr = file.getD [])
    ∧ (∀ r' tr, install ienv file name = (Except.ok r', tr) →
      savesIn tr = [r'] ∧ tr.getLast? = some (Ev.saveRegistry r')
      ∧ (lookupEntry r' name).map Entry.status = some (some "Installed"))
    ∧ (∀ er tr, remove renv file name = (Except.error er, tr) →
      savesIn tr = [] ∧ persist (file.getD []) tr = file.getD [])
    ∧ (∀ r' tr, remove renv file name = (Except.ok r', tr) →
      savesIn tr = [r'] ∧ tr.getLast? = some (Ev.saveRegistry r')
      ∧ (lookupEntry r' name).map Entry.status = some (some "Not installed")) := by
  refine ⟨fun er tr h => ?_, fun r' tr h => ?_, fun er tr h => ?_, fun r' tr h => ?_⟩
  · have hs := savesIn_install ienv file name
    rw [h] at hs
    simp at hs
    exact ⟨hs, persist_of_savesIn_nil _ _ hs⟩
  · have hs := savesIn_install ienv file name
    rw [h] at hs
    simp at hs
    obtain ⟨d, hf, hins⟩ := install_ok_inv _ _ _ _ _ h
    obtain ⟨e, hl, hst, hr, htr⟩ := installLoaded_ok_inv _ _ _ _ _ hins
    refine ⟨hs, ?_, ?_⟩
    · rw [htr]
      simp [installFsEvs]
    · rw [hr, lookupEntry_setEntry_self]
      rfl
  · have hs := savesIn_remove renv file name
    rw [h] at hs
    simp at hs
    exact ⟨hs, persist_of_savesIn_nil _ _ hs⟩
  · have hs := savesIn_remove renv file name
    rw [h] at hs
    simp at hs
    obtain ⟨d, hf, hrem⟩ := remove_ok_inv _ _ _ _ _ h
    obtain ⟨e, hl, hg, hr, htr⟩ := removeLoaded_ok_inv _ _ _ _ _ hrem
    refine ⟨hs, ?_, ?_⟩
    · rw [htr, List.getLast?_append_of_ne_nil _ (by simp)]
      rfl
    · rw [hr, lookupEntry_setEntry_self]
      rfl

theorem C4_witness :
    savesIn [Ev.pullImage "r"] = []
    ∧ persist [("a", (⟨"r", "r", none⟩ : Entry))] [Ev.pullImage "r"]
      = [("a", (⟨"r", "r", none⟩ : Entry))] :=
  (C4_registry_save_discipline ⟨false, none, false⟩ ⟨false, false, false, false⟩
    (some [("a", ⟨"r", "r", none⟩)]) "a").1 Err.PullFailed [Ev.pullImage "r"] (by decide)

/-- C9: no core operation ever deletes a registry entry.  After
`addrepo`, `install` or `remove` (successful or not), the persisted
document's key set is a superset of the one before; `install` and
`remove` leave every entry other than the named one untouched, and on
success rewrite the named entry changing only its status field (to
`Installed` resp. `Not installed`). -/
theorem C9_no_entry_deleted (ienv : InstallEnv) (renv : RemoveEnv)
    (file : Option Registry) (n r : String) :
    keys (file.getD []) ⊆ keys (persist (file.getD []) (addrepo file n r).2)
    ∧ keys (file.getD []) ⊆ keys (persist (file.getD []) (install ienv file n).2)
    ∧ keys (file.getD []) ⊆ keys (persist (file.getD []) (remove renv file n).2)
    ∧ (∀ m, m ≠ n →
        lookupEntry (persist (file.getD []) (install ienv file n).2) m
          = lookupEntry (file.getD []) m)
    ∧ (∀ m, m ≠ n →
        lookupEntry (persist (file.getD []) (remove renv file n).2) m
          = lookupEntry (file.getD []) m)
    ∧ (∀ r' tr e, install ienv file n = (Except.ok r', tr) →
        lookupEntry (file.getD []) n = some e →
        lookupEntry r' n = some { e with status := some "Installed" })
    ∧ (∀ r' tr e, remove renv file n = (Except.ok r', tr) →
        lookupEntry (file.getD []) n = some e →
        lookupEntry r' n = some { e with status := some "Not installed" }) := by
  refine ⟨?_, ?_, ?_, ?_, ?_, ?_, ?_⟩
  · rw [persist_addrepo]
    rcases hfull : addrepo file n r with ⟨res, tr⟩
    cases res with
    | error e => simp
    | ok r' =>
      rw [addrepo_eq] at hfull
      obtain ⟨hnone, hr, htr⟩ := addrepoLoaded_ok_inv _ _ _ _ _ hfull
      simp only
      rw [hr]
      exact keys_subset_setEntry _ _ _
  · rw [persist_install]
    rcases hfull : install ienv file n with ⟨res, tr⟩
    cases res with
    | error e => simp
    | ok r' =>
      obtain ⟨d, hf, hins⟩ := install_ok_inv _ _ _ _ _ hfull
      obtain ⟨e, hl, hst, hr, htr⟩ := installLoaded_ok_inv _ _ _ _ _ hins
      simp only
      rw [hr, hf]
      exact keys_subset_setEntry _ _ _
  · rw [persist_remove]
    rcases hfull : remove renv file n with ⟨res, tr⟩
    cases res with
    | error e => simp
    | ok r' =>
      obtain ⟨d, hf, hrem⟩ := remove_ok_inv _ _ _ _ _ hfull
      obtain ⟨e, hl, hg, hr, htr⟩ := removeLoaded_ok_inv _ _ _ _ _ hrem
      simp only
      rw [hr, hf]
      exact keys_subset_setEntry _ _ _
  · intro m hm
    rw [persist_install]
    rcases hfull : install ienv file n with ⟨res, tr⟩
    cases res with
    | error e => simp
    | ok r' =>
      obtain ⟨d, hf, hins⟩ := install_ok_inv _ _ _ _ _ hfull
      obtain ⟨e, hl, hst, hr, htr⟩ := installLoaded_ok_inv _ _ _ _ _ hins
      simp only
      rw [hr, hf]
      exact lookupEntry_setEntry_ne _ _ _ _ hm
  · intro m hm
    rw [persist_remove]
    rcases hfull : remove renv file n with ⟨res, tr⟩
    cases res with
    | error e => simp
    | ok r' =>
      obtain ⟨d, hf, hrem⟩ := remove_ok_inv _ _ _ _ _ hfull
      obtain ⟨e, hl, hg, hr, htr⟩ := removeLoaded_ok_inv _ _ _ _ _ hrem
      simp only
      rw [hr, hf]
      exact lookupEntry_setEntry_ne _ _ _ _ hm
  · intro r' tr e hfull he
    obtain ⟨d, hf, hins⟩ := install_ok_inv _ _ _ _ _ hfull
    obtain ⟨e', hl, hst, hr, htr⟩ := installLoaded_ok_inv _ _ _ _ _ hins
    have : e' = e := by
      rw [hf] at he
      simp at he
      rw [he] at hl
      exact (Option.some.inj hl).symm
    rw [hr, this, lookupEntry_setEntry_self]
  · intro r' tr e hfull he
    obtain ⟨d, hf, hrem⟩ := remove_ok_inv _ _ _ _ _ hfull
    obtain ⟨e', hl, hg, hr, htr⟩ := removeLoaded_ok_inv _ _ _ _ _ hrem
    have : e' = e := by
      rw [hf] at he
      simp at he
      rw [he] at hl
      exact (Option.some.inj hl).symm
    rw [hr, this, lookupEntry_setEntry_self]

theorem C9_witness :
    lookupEntry [("a", (⟨"r", "r", some "Installed"⟩ : Entry))] "a"
      = some { (⟨"r", "r", none⟩ : Entry) with status := some "Installed" } :=
  (C9_no_entry_deleted ⟨true, some (some "s"), true⟩ ⟨false, false, false, false⟩
    (some [("a", ⟨"r", "r", none⟩)]) "a" "unused").2.2.2.2.2.1
    [("a", ⟨"r", "r", some "Installed"⟩)]
    ([Ev.pullImage "r", Ev.runSchemaCat "r"] ++ installFsEvs "a"
      ++ [Ev.runContainer "r" "a", Ev.saveRegistry [("a", ⟨"r", "r", some "Installed"⟩)]])
    ⟨"r", "r", none⟩ (by decide) (by decide)

/-- C8 is false of the code on the ordering of the last two filesystem
actions.  On registry `{"a": {repo: "r", status: "Installed"}}` with no
stale compiled artifacts, the last filesystem action of the teardown is
the completion-script removal (`/etc/bash_completion.d/a`), NOT the
install-directory removal: `os.rmdir(package_path)` at main.py:157 runs
BEFORE `os.remove("/etc/bash_completion.d/" + name)` at line 158. -/
theorem C8_counterexample :
    (fsEvents (remove ⟨false, false, true, true⟩
        (some [("a", (⟨"r", "r", some "Installed"⟩ : Entry))]) "a").2).getLast?
      = some (Ev.removeFile ("/etc/bash_completion.d/" ++ "a"))
    ∧ (fsEvents (remove ⟨false, false, true, true⟩
        (some [("a", (⟨"r", "r", some "Installed"⟩ : Entry))]) "a").2).getLast?
      ≠ some (Ev.removeDir (INSTALL_PATH ++ "/" ++ "a")) := by decide

/-- C8 amended: for any `remove` that passes the precondition checks,
the filesystem mutations of the whole command are exactly, in order:
the generated CLI program, the compiled CLI program only if its
existence check passes, the package-marker file, its compiled sibling
only if its existence check passes, the entry-point file from the
binary directory, then the install directory, and FINALLY the
completion script — the completion-script removal, not the
install-directory removal, is the last filesystem action. -/
theorem C8_amended_teardown_order (env : RemoveEnv) (d : Registry) (name : String) (e : Entry)
    (h : lookupEntry d name = some e) (hg : statusGuardNotInstalled e = false) :
    fsEvents (remove env (some d) name).2
      = [Ev.removeFile (INSTALL_PATH ++ "/" ++ name ++ "/main.py")]
        ++ (if env.mainPycExists then
              [Ev.removeFile (INSTALL_PATH ++ "/" ++ name ++ "/main.pyc")] else [])
        ++ [Ev.removeFile (INSTALL_PATH ++ "/" ++ name ++ "/__init__.py")]
        ++ (if env.initPycExists then
              [Ev.removeFile (INSTALL_PATH ++ "/" ++ name ++ "/__init__.pyc")] else [])
        ++ [Ev.removeFile ("/usr/bin/" ++ name),
            Ev.removeDir (INSTALL_PATH ++ "/" ++ name),
            Ev.removeFile ("/etc/bash_completion.d/" ++ name)]
    ∧ (fsEvents (remove env (some d) name).2).getLast?
      = some (Ev.removeFile ("/etc/bash_completion.d/" ++ name)) := by
  have hfs : fsEvents (remove env (some d) name).2 = removeFsEvs env name := by
    by_cases h1 : env.mainPycExists <;> by_cases h2 : env.initPycExists <;>
      by_cases hcr : env.containerRemoveOk = false <;>
      by_cases hir : env.imageRemoveOk = false <;>
      simp [remove, get_repo, removeLoaded, removeFsEvs, h, hg, h1, h2, hcr, hir,
        fsEvents, Ev.isFs]
  constructor
  · rw [hfs]
    by_cases h1 : env.mainPycExists <;> by_cases h2 : env.initPycExists <;>
      simp [removeFsEvs, h1, h2]
  · rw [hfs]
    by_cases h1 : env.mainPycExists <;> by_cases h2 : env.initPycExists <;>
      simp [removeFsEvs, h1, h2, List.getLast?_append_of_ne_nil]

theorem C8_witness :
    (fsEvents (remove ⟨true, true, true, true⟩
        (some [("a", (⟨"r", "r", some "Installed"⟩ : Entry))]) "a").2
      = [Ev.removeFile (INSTALL_PATH ++ "/" ++ "a" ++ "/main.py")]
        ++ (if (true : Bool) then
              [Ev.removeFile (INSTALL_PATH ++ "/" ++ "a" ++ "/main.pyc")] else [])
        ++ [Ev.removeFile (INSTALL_PATH ++ "/" ++ "a" ++ "/__init__.py")]
        ++ (if (true : Bool) then
              [Ev.removeFile (INSTALL_PATH ++ "/" ++ "a" ++ "/__init__.pyc")] else [])
        ++ [Ev.removeFile ("/usr/bin/" ++ "a"),
            Ev.removeDir (INSTALL_PATH ++ "/" ++ "a"),
            Ev.removeFile ("/etc/bash_completion.d/" ++ "a")])
    ∧ (fsEvents (remove ⟨true, true, true, true⟩
        (some [("a", (⟨"r", "r", some "Installed"⟩ : Entry))]) "a").2).getLast?
      = some (Ev.removeFile ("/etc/bash_completion.d/" ++ "a")) :=
  C8_amended_teardown_order ⟨true, true, true, true⟩
    [("a", ⟨"r", "r", some "Installed"⟩)] "a" ⟨"r", "r", some "Installed"⟩
    (by decide) (by decide)

end SonicPlus
